import Mathlib

/-!
Shallow embedding of `src/Storages/StorageMaterializedView.cpp` (ClickHouse
materialized-view storage adapter) and proofs about it.

The embedding models the observable behaviour of the functions the claims
are about: construction (validation, inner-table creation with rollback),
the refresh protocol (`prepareRefresh` / `transferRefreshedData`),
`truncate`, `checkAlterIsPossible`, `totalRows`/`totalBytes`/
`totalBytesUncompressed`, and the header-reconciliation helper
`removeNonCommonColumns`.  External collaborators (catalog, storage
factory, DDL interpreters, sample-block computation) are passed in as an
explicit environment; side effects are recorded as explicit event traces.
-/

namespace MV

/-- Error codes raised by the file (namespace ErrorCodes in the source). -/
inductive ErrorCode where
  | BAD_ARGUMENTS
  | NOT_IMPLEMENTED
  | INCORRECT_QUERY
  | TOO_MANY_MATERIALIZED_VIEWS
  | LOGICAL_ERROR
  | UNKNOWN_STORAGE
deriving DecidableEq, Repr

/-- Identity of a table: database, table name, optional UUID.
`uuid = none` models `StorageID::hasUUID() == false` (Nil uuid). -/
structure StorageID where
  database_name : String
  table_name : String
  uuid : Option String
deriving DecidableEq, Repr

/-- Lexicographic comparison of character lists by code point, modelling
std::string operator< (in UTF-8, byte order agrees with code-point
order). -/
def charsLt : List Char → List Char → Bool
  | _, [] => false
  | [], _ :: _ => true
  | a :: as, b :: bs =>
      if a.toNat < b.toNat then true
      else if b.toNat < a.toNat then false
      else charsLt as bs

/-- std::string operator< on the underlying characters. -/
def strLt (a b : String) : Bool := charsLt a.data b.data

/-- Lexicographic comparison of qualified names, as used by
`mv_storage_id.getQualifiedName() < id.getQualifiedName()`
(a QualifiedTableName compares database first, then table). -/
def qualifiedLt (a b : StorageID) : Bool :=
  strLt a.database_name b.database_name
    || (a.database_name == b.database_name && strLt a.table_name b.table_name)

/-- generateInnerTableName (source lines 57-67): prefix ".inner",
append "_scratch" when scratch, then "_id." ++ uuid when the view has a
UUID, else "." ++ table name. -/
def generateInnerTableName (view_id : StorageID) (scratch : Bool) : String :=
  let res := ".inner"
  let res := if scratch then res ++ "_scratch" else res
  match view_id.uuid with
  | some u => res ++ "_id." ++ u
  | none => res ++ "." ++ view_id.table_name

/-! ## Blocks and header reconciliation -/

/-- One column of a header: a name and a (data) type.  The type participates
in structural equality of blocks. -/
structure Column where
  name : String
  type : String
deriving DecidableEq, Repr

/-- A header (Block): an ordered list of columns. -/
abbrev Block := List Column

/-- Block::has(name): some column has this name. -/
def Block.hasName (b : Block) (n : String) : Bool :=
  b.any (fun c => c.name == n)

/-- Block::getPositionByName: position of the first column with the name. -/
def Block.getPositionByName (b : Block) (n : String) : Nat :=
  b.findIdx (fun c => c.name == n)

/-- Block::getNames: the column names, in order. -/
def Block.getNames (b : Block) : List String :=
  b.map Column.name

/-- Helper for Block::erase(positions): keep the columns whose position
(starting at `i`) is not in `ps`. -/
def eraseFrom (b : Block) (ps : List Nat) (i : Nat) : Block :=
  match b with
  | [] => []
  | c :: rest =>
      if ps.contains i then eraseFrom rest ps (i + 1)
      else c :: eraseFrom rest ps (i + 1)

/-- Block::erase(std::set of positions): drop the columns at the given
positions. -/
def Block.eraseAtPositions (b : Block) (ps : List Nat) : Block :=
  eraseFrom b ps 0

/-- removeNonCommonColumns (source lines 69-79): collect the positions (via
getPositionByName, i.e. first occurrence of the name) of target columns
whose name is absent from `src`, then erase those positions from
`target`. -/
def removeNonCommonColumns (src : Block) (target : Block) : Block :=
  let target_only_positions :=
    (target.filter (fun c => !(src.hasName c.name))).map
      (fun c => target.getPositionByName c.name)
  target.eraseAtPositions target_only_positions

/-- blocksHaveEqualStructure: same columns (name and type) in the same
order. -/
def blocksHaveEqualStructure (a b : Block) : Bool :=
  a == b

/-! ## View state and refresh protocol -/

/-- Refresh strategy AST: only the APPEND flag matters to this file. -/
structure RefreshStrategy where
  append : Bool
deriving DecidableEq, Repr

/-- The mutable state of a StorageMaterializedView that the modelled
member functions read and write. -/
structure ViewState where
  has_inner_target_table : Bool
  has_scratch_table : Bool
  target_table_id : StorageID
  scratch_table_id : StorageID
  scratch_table_is_known_to_be_empty : Bool
  refresher : Option RefreshStrategy
  refresh_on_start : Bool
deriving DecidableEq, Repr

/-- Observable side effects of the modelled member functions. -/
inductive Event where
  /-- InterpreterCreateQuery::execute for an inner table (line 232). -/
  | createTable (id : StorageID)
  /-- Rollback drop, executeDropQuery(Drop, ..., sync false,
  ignore_sync_setting true, may_lock_ddl_guard) (lines 251-253). -/
  | dropInner (id : StorageID) (may_lock_ddl_guard : Bool)
  /-- tryLogCurrentException after a failed rollback drop (line 257). -/
  | logDropFailure (id : StorageID)
  /-- executeDropQuery(Truncate, ..., id, sync) from truncate (line 387). -/
  | truncateForward (id : StorageID) (sync : Bool)
  /-- scratch->lockExclusively (line 431). -/
  | lockExclusive (id : StorageID)
  /-- scratch->truncate under the exclusive lock (line 435). -/
  | truncateScratch (id : StorageID)
  /-- target->transferAllDataFrom(scratch, remove_from_source,
  replace_at_destination) (line 464). -/
  | transferAllDataFrom (dest src : StorageID)
      (remove_from_source replace_at_destination : Bool)
deriving DecidableEq, Repr

/-- The INSERT query returned by prepareRefresh: destination table and
explicit column list (the SELECT itself is carried along unchanged). -/
structure InsertQuery where
  table_id : StorageID
  columns : List String
deriving DecidableEq, Repr

/-- prepareRefresh (source lines 424-457).  The sample block of the view's
SELECT (computed by an external interpreter at lines 444-448) is passed in
as `sample_block`.  Returns the events performed, the built insert query,
and the updated state. -/
def prepareRefresh (s : ViewState) (sample_block : Block) :
    List Event × InsertQuery × ViewState :=
  let target := if s.has_scratch_table then s.scratch_table_id else s.target_table_id
  let events :=
    if s.has_scratch_table && !s.scratch_table_is_known_to_be_empty then
      [Event.lockExclusive s.scratch_table_id,
       Event.truncateScratch s.scratch_table_id]
    else []
  let insert_query : InsertQuery :=
    { table_id := target, columns := sample_block.getNames }
  (events, insert_query,
   { s with scratch_table_is_known_to_be_empty := false })

/-- transferRefreshedData (source lines 459-467): no-op without a scratch
table; otherwise target->transferAllDataFrom(scratch, true, true) and the
scratch-empty flag becomes true. -/
def transferRefreshedData (s : ViewState) : List Event × ViewState :=
  if !s.has_scratch_table then ([], s)
  else
    ([Event.transferAllDataFrom s.target_table_id s.scratch_table_id true true],
     { s with scratch_table_is_known_to_be_empty := true })

/-- truncate (source lines 384-388): forward a Truncate drop query (sync
true) to the target table id when the target is inner; otherwise do
nothing.  The function cannot fail. -/
def truncate (s : ViewState) : List Event :=
  if s.has_inner_target_table then
    [Event.truncateForward s.target_table_id true]
  else []

/-! ## Construction -/

/-- Engine features looked up in StorageFactory (tryGetFeatures). -/
structure Features where
  supports_moving_data_between_tables : Bool
  supports_replication : Bool
deriving DecidableEq, Repr

/-- An ASTStorage clause: engine name (none when no ENGINE) and whether a
PARTITION BY clause is present. -/
structure ASTStorageClause where
  engine : Option String
  partition_by : Bool
deriving DecidableEq, Repr

/-- A create-table query, as far as the scratch-table validation inspects
it: kind flags and the storage clause.  (Columns are irrelevant to the
behaviour modelled here.) -/
structure CreateTableQuery where
  is_dictionary : Bool
  is_ordinary_view : Bool
  is_materialized_view : Bool
  is_live_view : Bool
  is_window_view : Bool
  storage : Option ASTStorageClause
deriving DecidableEq, Repr

/-- The fields of the CREATE query of the materialized view itself that the
constructor reads.  `needs_inner_target_table` and `needs_scratch_table`
model the results of the ASTCreateQuery methods of the same names. -/
structure ASTCreateQuery where
  /-- whether a SELECT is present (query.select non-null). -/
  select : Bool
  needs_inner_target_table : Bool
  needs_scratch_table : Bool
  storage : Option ASTStorageClause
  to_table_id : StorageID
  to_inner_uuid : List String
  refresh_strategy : Option RefreshStrategy
  is_create_empty : Bool
deriving DecidableEq, Repr

/-- Modelled from the spec: ASTCreateQuery::needsInnerTables (declared
outside src/) is the number of inner tables the view needs, i.e. one for
the inner target table when requested plus one for the scratch table when
requested. -/
def needsInnerTables (q : ASTCreateQuery) : Nat :=
  (if q.needs_inner_target_table then 1 else 0)
    + (if q.needs_scratch_table then 1 else 0)

/-- The inner target's create query built at source lines 159-165: a fresh
ASTCreateQuery (all kind flags false) carrying the view's column list and
the view's storage clause. -/
def innerTargetCreateQuery (q : ASTCreateQuery) : CreateTableQuery :=
  { is_dictionary := false
    is_ordinary_view := false
    is_materialized_view := false
    is_live_view := false
    is_window_view := false
    storage := q.storage }

/-- External collaborators of the constructor, passed in explicitly. -/
structure Env where
  /-- StorageFactory::tryGetFeatures by engine name. -/
  features : String → Option Features
  /-- db->getCreateTableQuery for the external target table (used to derive
  the scratch create query when there is no inner target). -/
  catalog_target_create : CreateTableQuery
  /-- whether select.select_table_id is non-empty. -/
  select_has_table : Bool
  /-- DatabaseCatalog::getDependentViews(...).size(). -/
  dependent_views_count : Nat
  /-- server setting max_materialized_views_count_for_table (0 = off). -/
  max_materialized_views : Nat
  /-- executing an inner create query for the given id: error message, or
  the materialized StorageID re-read from the catalog (line 234). -/
  create_result : StorageID → Except String StorageID
  /-- executing a rollback drop for the given id: may fail. -/
  drop_result : StorageID → Except String Unit

/-- Errors the constructor can propagate: either one of its own validation
exceptions, or the re-raised error of a failed inner create. -/
inductive ConstructError where
  | err (code : ErrorCode)
  | createFailed (msg : String)
deriving DecidableEq, Repr

/-- Result of the validation-and-binding phase of the constructor (source
lines 90-217): everything before the inner create queries are executed. -/
structure PreState where
  has_inner_target_table : Bool
  has_scratch_table : Bool
  target_table_id : StorageID
  scratch_table_id : StorageID
  scratch_table_is_known_to_be_empty : Bool
  inner_target_create_query : Option CreateTableQuery
  scratch_create_query : Option CreateTableQuery
  refresher : Option RefreshStrategy
  refresh_on_start : Bool
deriving Repr

/-- Validation of the derived scratch create query (source lines 183-208):
reject dictionaries and view variants (BAD_ARGUMENTS), a missing storage
clause or engine (LOGICAL_ERROR), an unknown engine (UNKNOWN_STORAGE), an
engine without moving-data support, a PARTITION BY clause, or a replicated
engine (NOT_IMPLEMENTED). -/
def validateScratchCreate (env : Env) (d : CreateTableQuery) :
    Except ConstructError Unit :=
  if d.is_dictionary || d.is_ordinary_view || d.is_materialized_view
      || d.is_live_view || d.is_window_view then
    .error (.err .BAD_ARGUMENTS)
  else
    match d.storage with
    | none => .error (.err .LOGICAL_ERROR)
    | some st =>
      match st.engine with
      | none => .error (.err .LOGICAL_ERROR)
      | some ename =>
        match env.features ename with
        | none => .error (.err .UNKNOWN_STORAGE)
        | some f =>
          if !f.supports_moving_data_between_tables then
            .error (.err .NOT_IMPLEMENTED)
          else if st.partition_by then
            .error (.err .NOT_IMPLEMENTED)
          else if f.supports_replication then
            .error (.err .NOT_IMPLEMENTED)
          else .ok ()

/-- The validation-and-binding phase of the constructor (source lines
90-217), in source order: missing SELECT; inner target without storage
clause; dependent-views cap; self-reference by uuid or by name; inner-id
binding from minted names; TO INNER UUID count check and uuid binding;
create-query preparation and scratch validation (only when not attaching);
refresher setup. -/
def preConstruct (view_id : StorageID) (q : ASTCreateQuery) (attach : Bool)
    (env : Env) : Except ConstructError PreState :=
  if !q.select then .error (.err .INCORRECT_QUERY)
  else
  let has_inner_target := q.needs_inner_target_table
  if has_inner_target && q.storage.isNone then .error (.err .INCORRECT_QUERY)
  else
  let has_scratch := q.needs_scratch_table
  if env.select_has_table && decide (0 < env.max_materialized_views)
      && decide (env.max_materialized_views ≤ env.dependent_views_count) then
    .error (.err .TOO_MANY_MATERIALIZED_VIEWS)
  else
  let point_to_itself_by_uuid := q.to_inner_uuid.any (fun u => some u == view_id.uuid)
  let point_to_itself_by_name := q.to_table_id.database_name == view_id.database_name
      && q.to_table_id.table_name == view_id.table_name
  if point_to_itself_by_uuid || point_to_itself_by_name then
    .error (.err .BAD_ARGUMENTS)
  else
  let target0 : StorageID :=
    if has_inner_target then
      { database_name := view_id.database_name
        table_name := generateInnerTableName view_id false
        uuid := none }
    else q.to_table_id
  let scratch0 : StorageID :=
    if has_scratch then
      { database_name := view_id.database_name
        table_name := generateInnerTableName view_id true
        uuid := none }
    else { database_name := "", table_name := "", uuid := none }
  if !q.to_inner_uuid.isEmpty && q.to_inner_uuid.length != needsInnerTables q then
    .error (.err .INCORRECT_QUERY)
  else
  let target1 :=
    if !q.to_inner_uuid.isEmpty && has_inner_target then
      { target0 with uuid := some (q.to_inner_uuid.headD "") }
    else target0
  let scratch1 :=
    if !q.to_inner_uuid.isEmpty && has_scratch then
      { scratch0 with uuid := some (q.to_inner_uuid.getLastD "") }
    else scratch0
  let itcq : Option CreateTableQuery :=
    if !attach && has_inner_target then some (innerTargetCreateQuery q) else none
  let scq : Option CreateTableQuery :=
    if !attach && has_scratch then
      some (if has_inner_target then innerTargetCreateQuery q
            else env.catalog_target_create)
    else none
  let check :=
    match scq with
    | some d => validateScratchCreate env d
    | none => .ok ()
  match check with
  | .error e => .error e
  | .ok _ =>
    .ok { has_inner_target_table := has_inner_target
          has_scratch_table := has_scratch
          target_table_id := target1
          scratch_table_id := scratch1
          scratch_table_is_known_to_be_empty := !attach && has_scratch
          inner_target_create_query := itcq
          scratch_create_query := scq
          refresher := q.refresh_strategy
          refresh_on_start :=
            if q.refresh_strategy.isSome then !attach && !q.is_create_empty
            else false }

/-- The rollback loop of the constructor (source lines 246-259): for every
already-created inner table, issue a drop with
may_lock_ddl_guard = (view qualified name < inner qualified name); a
failure of a rollback drop is logged and swallowed. -/
def rollbackDrops (env : Env) (mv_id : StorageID) (created : List StorageID) :
    List Event :=
  created.flatMap (fun id =>
    let may_lock := qualifiedLt mv_id id
    match env.drop_result id with
    | .ok _ => [Event.dropInner id may_lock]
    | .error _ => [Event.dropInner id may_lock, Event.logDropFailure id])

/-- The create-execution phase of the constructor (source lines 219-261):
execute the inner target create then the scratch create (each only when a
query was prepared), record each success, and on any failure drop the
already-created tables and re-raise the original error. -/
def runCreates (env : Env) (mv_id : StorageID) (p : PreState) :
    List Event × Except ConstructError ViewState :=
  let finish := fun (evs : List Event) (tid sid : StorageID) =>
    (evs, Except.ok
      { has_inner_target_table := p.has_inner_target_table
        has_scratch_table := p.has_scratch_table
        target_table_id := tid
        scratch_table_id := sid
        scratch_table_is_known_to_be_empty := p.scratch_table_is_known_to_be_empty
        refresher := p.refresher
        refresh_on_start := p.refresh_on_start : ViewState })
  match p.inner_target_create_query with
  | none =>
    match p.scratch_create_query with
    | none => finish [] p.target_table_id p.scratch_table_id
    | some _ =>
      match env.create_result p.scratch_table_id with
      | .ok sid =>
          finish [Event.createTable p.scratch_table_id] p.target_table_id sid
      | .error e => ([], .error (.createFailed e))
  | some _ =>
    match env.create_result p.target_table_id with
    | .error e => ([], .error (.createFailed e))
    | .ok tid =>
      match p.scratch_create_query with
      | none => finish [Event.createTable p.target_table_id] tid p.scratch_table_id
      | some _ =>
        match env.create_result p.scratch_table_id with
        | .ok sid =>
            finish [Event.createTable p.target_table_id,
                    Event.createTable p.scratch_table_id] tid sid
        | .error e =>
            (Event.createTable p.target_table_id
               :: rollbackDrops env mv_id [tid],
             .error (.createFailed e))

/-- The full constructor StorageMaterializedView::StorageMaterializedView
(source lines 81-262): validation and binding, then create execution with
rollback.  Returns the event trace and either an error or the constructed
state. -/
def construct (view_id : StorageID) (q : ASTCreateQuery) (attach : Bool)
    (env : Env) : List Event × Except ConstructError ViewState :=
  match preConstruct view_id q attach env with
  | .error e => ([], .error e)
  | .ok p => runCreates env view_id p

/-- The drops recorded in a trace, with their may_lock_ddl_guard flags. -/
def dropsIssued (evs : List Event) : List (StorageID × Bool) :=
  evs.filterMap (fun e =>
    match e with
    | .dropInner id f => some (id, f)
    | _ => none)

/-- The successful creates recorded in a trace. -/
def createsIssued (evs : List Event) : List StorageID :=
  evs.filterMap (fun e =>
    match e with
    | .createTable id => some id
    | _ => none)

/-! ## Alter validation -/

/-- Alter command kinds (the constructor list is a representative subset of
AlterCommand::Type; MODIFY_QUERY and MODIFY_REFRESH are the ones the view
treats specially). -/
inductive AlterType where
  | MODIFY_QUERY
  | MODIFY_REFRESH
  | ADD_COLUMN
  | DROP_COLUMN
  | MODIFY_COLUMN
  | RENAME_COLUMN
  | MODIFY_TTL
  | MODIFY_SETTING
deriving DecidableEq, Repr

/-- An alter command, as far as checkAlterIsPossible inspects it.
`is_comment_alter` models AlterCommand::isCommentAlter() (declared outside
src/); `refresh_append` models command.refresh->append, read only for
MODIFY_REFRESH. -/
structure AlterCommand where
  type : AlterType
  is_comment_alter : Bool
  refresh_append : Bool
deriving DecidableEq, Repr

/-- checkAlterIsPossible (source lines 494-513): scan the commands; comment
alters and MODIFY_QUERY pass; MODIFY_REFRESH requires a refresher and an
unchanged APPEND flag (append == !has_scratch_table), else
NOT_IMPLEMENTED; anything else is NOT_IMPLEMENTED. -/
def checkAlterIsPossible (refresher_exists : Bool) (has_scratch_table : Bool) :
    List AlterCommand → Except ErrorCode Unit
  | [] => .ok ()
  | c :: rest =>
    if c.is_comment_alter then
      checkAlterIsPossible refresher_exists has_scratch_table rest
    else if c.type = .MODIFY_QUERY then
      checkAlterIsPossible refresher_exists has_scratch_table rest
    else if c.type = .MODIFY_REFRESH then
      if !refresher_exists then .error .NOT_IMPLEMENTED
      else if c.refresh_append != !has_scratch_table then .error .NOT_IMPLEMENTED
      else checkAlterIsPossible refresher_exists has_scratch_table rest
    else .error .NOT_IMPLEMENTED

/-- A command that checkAlterIsPossible lets through: a comment alter,
MODIFY QUERY, or MODIFY REFRESH with a refresher present and the APPEND
flag unchanged. -/
def allowedAlter (refresher_exists : Bool) (has_scratch_table : Bool)
    (c : AlterCommand) : Bool :=
  c.is_comment_alter
    || c.type == .MODIFY_QUERY
    || (c.type == .MODIFY_REFRESH && refresher_exists
        && c.refresh_append == !has_scratch_table)

/-! ## Size accessors -/

/-- What the view reads from a resolved target table when delegating the
size accessors. -/
structure TableHandle where
  total_rows : Option Nat
  total_bytes : Option Nat
  total_bytes_uncompressed : Option Nat
deriving DecidableEq, Repr

/-- DatabaseCatalog::tryGetTable, as a function from ids to tables. -/
abbrev Catalog := StorageID → Option TableHandle

/-- totalRows (source lines 695-703): delegate to the target table only
when the target is inner and resolvable; otherwise empty. -/
def totalRows (s : ViewState) (catalog : Catalog) : Option Nat :=
  if s.has_inner_target_table then
    match catalog s.target_table_id with
    | some t => t.total_rows
    | none => none
  else none

/-- totalBytes (source lines 705-713), same shape as totalRows. -/
def totalBytes (s : ViewState) (catalog : Catalog) : Option Nat :=
  if s.has_inner_target_table then
    match catalog s.target_table_id with
    | some t => t.total_bytes
    | none => none
  else none

/-- totalBytesUncompressed (source lines 715-723), same shape. -/
def totalBytesUncompressed (s : ViewState) (catalog : Catalog) : Option Nat :=
  if s.has_inner_target_table then
    match catalog s.target_table_id with
    | some t => t.total_bytes_uncompressed
    | none => none
  else none

/-! ## Derived predicates used in theorem statements -/

/-- The create query from which the scratch table's create query is derived
(source lines 171-180): a clone of the inner target's create query when the
view has an inner target, else the external target's create query fetched
from the catalog. -/
def scratchDerivedCreate (q : ASTCreateQuery) (env : Env) : CreateTableQuery :=
  if q.needs_inner_target_table then innerTargetCreateQuery q
  else env.catalog_target_create

/-- All constructor validations that precede the scratch-engine checks pass:
SELECT present, storage clause present when an inner target is needed,
dependent-views cap not hit, no self-reference, and the TO INNER UUID count
check passes (vacuously when no UUIDs are given). -/
def passesPreScratchChecks (view_id : StorageID) (q : ASTCreateQuery)
    (env : Env) : Bool :=
  q.select
  && !(q.needs_inner_target_table && q.storage.isNone)
  && !(env.select_has_table && decide (0 < env.max_materialized_views)
        && decide (env.max_materialized_views ≤ env.dependent_views_count))
  && !(q.to_inner_uuid.any (fun u => some u == view_id.uuid)
        || (q.to_table_id.database_name == view_id.database_name
            && q.to_table_id.table_name == view_id.table_name))
  && !(!q.to_inner_uuid.isEmpty
        && q.to_inner_uuid.length != needsInnerTables q)

/-- Whether a construction run ended without an error. -/
def constructSucceeds (r : List Event × Except ConstructError ViewState) : Bool :=
  match r.2 with
  | .ok _ => true
  | .error _ => false

/-! ## Concrete fixtures for witnesses and counterexamples -/

/-- A refreshable view state with a scratch table whose emptiness is not
known. -/
def sScratch : ViewState :=
  { has_inner_target_table := true
    has_scratch_table := true
    target_table_id := { database_name := "db", table_name := ".inner_id.u1", uuid := some "u1" }
    scratch_table_id := { database_name := "db", table_name := ".inner_scratch_id.u2", uuid := some "u2" }
    scratch_table_is_known_to_be_empty := false
    refresher := some { append := false }
    refresh_on_start := false }

/-- A view whose target is an external TO-clause table. -/
def sExternal : ViewState :=
  { has_inner_target_table := false
    has_scratch_table := false
    target_table_id := { database_name := "db", table_name := "ext", uuid := none }
    scratch_table_id := { database_name := "", table_name := "", uuid := none }
    scratch_table_is_known_to_be_empty := false
    refresher := none
    refresh_on_start := false }

/-- A two-column sample block. -/
def blockAB : Block := [{ name := "a", type := "Int64" }, { name := "b", type := "String" }]

/-- A one-column block typed Int64. -/
def blkInt : Block := [{ name := "a", type := "Int64" }]

/-- A one-column block with the same name typed String. -/
def blkStr : Block := [{ name := "a", type := "String" }]

/-- A catalog that resolves the external target table of sExternal. -/
def extCatalog : Catalog := fun id =>
  if id = sExternal.target_table_id then
    some { total_rows := some 5, total_bytes := some 7, total_bytes_uncompressed := some 9 }
  else none

/-- The view identity used by construction fixtures. -/
def vid0 : StorageID := { database_name := "db", table_name := "v", uuid := some "u0" }

/-- A create-table query for a plain MergeTree table. -/
def ctqPlain : CreateTableQuery :=
  { is_dictionary := false
    is_ordinary_view := false
    is_materialized_view := false
    is_live_view := false
    is_window_view := false
    storage := some { engine := some "MergeTree", partition_by := false } }

/-- A CREATE of a non-refreshable view with an inner target. -/
def qPlain : ASTCreateQuery :=
  { select := true
    needs_inner_target_table := true
    needs_scratch_table := false
    storage := some { engine := some "MergeTree", partition_by := false }
    to_table_id := { database_name := "", table_name := "", uuid := none }
    to_inner_uuid := []
    refresh_strategy := none
    is_create_empty := false }

/-- A CREATE of a refreshable (non-APPEND) view: inner target plus scratch. -/
def qScratch : ASTCreateQuery :=
  { qPlain with needs_scratch_table := true, refresh_strategy := some { append := false } }

/-- qScratch with two TO INNER UUIDs. -/
def qScratchUuid : ASTCreateQuery :=
  { qScratch with to_inner_uuid := ["tu", "su"] }

/-- qScratch with a wrong number of TO INNER UUIDs (one instead of two). -/
def qBadCount : ASTCreateQuery :=
  { qScratch with to_inner_uuid := ["x"] }

/-- An environment where every engine supports moving data and every DDL
succeeds. -/
def envOk : Env :=
  { features := fun _ => some { supports_moving_data_between_tables := true, supports_replication := false }
    catalog_target_create := ctqPlain
    select_has_table := false
    dependent_views_count := 0
    max_materialized_views := 0
    create_result := fun id => .ok id
    drop_result := fun _ => .ok () }

/-- envOk with every engine lacking moving-data support. -/
def envNoMove : Env :=
  { envOk with
    features := fun _ => some { supports_moving_data_between_tables := false, supports_replication := false } }

/-- The target inner table id minted for vid0 before any create. -/
def tid0 : StorageID := { database_name := "db", table_name := ".inner_id.u0", uuid := none }

/-- The scratch inner table id minted for vid0 before any create. -/
def sid0 : StorageID := { database_name := "db", table_name := ".inner_scratch_id.u0", uuid := none }

/-- envOk, except that creating the scratch inner table of vid0 fails. -/
def envScratchFails : Env :=
  { envOk with
    create_result := fun id => if id = sid0 then .error "boom" else .ok id }

/-- The PreState reached by preConstruct on vid0, qScratchUuid, attach
true: inner ids minted from vid0 with the TO INNER UUIDs bound, no create
queries prepared. -/
def pU : PreState :=
  { has_inner_target_table := true
    has_scratch_table := true
    target_table_id := { database_name := "db", table_name := ".inner_id.u0", uuid := some "tu" }
    scratch_table_id := { database_name := "db", table_name := ".inner_scratch_id.u0", uuid := some "su" }
    scratch_table_is_known_to_be_empty := false
    inner_target_create_query := none
    scratch_create_query := none
    refresher := some { append := false }
    refresh_on_start := false }

/-- The ViewState produced by attaching (attach true) vid0 with
qScratchUuid: ids minted and uuid-bound, nothing created. -/
def sU : ViewState :=
  { has_inner_target_table := true
    has_scratch_table := true
    target_table_id := { database_name := "db", table_name := ".inner_id.u0", uuid := some "tu" }
    scratch_table_id := { database_name := "db", table_name := ".inner_scratch_id.u0", uuid := some "su" }
    scratch_table_is_known_to_be_empty := false
    refresher := some { append := false }
    refresh_on_start := false }

/-- The PreState reached by preConstruct on vid0, qScratch, attach false. -/
def pW : PreState :=
  { has_inner_target_table := true
    has_scratch_table := true
    target_table_id := tid0
    scratch_table_id := sid0
    scratch_table_is_known_to_be_empty := true
    inner_target_create_query := some (innerTargetCreateQuery qScratch)
    scratch_create_query := some (innerTargetCreateQuery qScratch)
    refresher := some { append := false }
    refresh_on_start := true }

/-! ## Theorems -/

/-- C1: prepareRefresh behaves as specified: when a scratch table exists
and scratch_table_is_known_to_be_empty is false, it takes an exclusive lock
on the scratch table and truncates it before building the insert query (and
performs nothing else); the returned INSERT targets the scratch table when
one exists, else the target table; its column list is the column names of
the SELECT's sample block in order; and the scratch-empty flag is false
after the call. -/
theorem prepareRefresh_spec (s : ViewState) (b : Block) :
    (s.has_scratch_table = true → s.scratch_table_is_known_to_be_empty = false →
      (prepareRefresh s b).1 =
        [Event.lockExclusive s.scratch_table_id,
         Event.truncateScratch s.scratch_table_id])
    ∧ (prepareRefresh s b).2.1.table_id =
        (if s.has_scratch_table then s.scratch_table_id else s.target_table_id)
    ∧ (prepareRefresh s b).2.1.columns = Block.getNames b
    ∧ (prepareRefresh s b).2.2.scratch_table_is_known_to_be_empty = false := by
  refine ⟨fun h1 h2 => ?_, rfl, rfl, rfl⟩
  simp [prepareRefresh, h1, h2]

/-- Witness for C1 at a concrete refreshable state with a non-empty
scratch table. -/
theorem prepareRefresh_spec_witness :
    (prepareRefresh sScratch blockAB).1 =
      [Event.lockExclusive sScratch.scratch_table_id,
       Event.truncateScratch sScratch.scratch_table_id]
    ∧ (prepareRefresh sScratch blockAB).2.1.table_id = sScratch.scratch_table_id
    ∧ (prepareRefresh sScratch blockAB).2.1.columns = ["a", "b"]
    ∧ (prepareRefresh sScratch blockAB).2.2.scratch_table_is_known_to_be_empty = false := by
  obtain ⟨h1, h2, h3, h4⟩ := prepareRefresh_spec sScratch blockAB
  exact ⟨h1 rfl rfl, by simpa using h2, by simpa using h3, h4⟩

/-- C2: transferRefreshedData is a no-op without a scratch table; with one
it instructs the target to move all data from the scratch table with
remove_from_source and replace_at_destination both true, after which the
scratch-empty flag is true; and the flag is false after prepareRefresh
(i.e. once an insert has begun). -/
theorem transferRefreshedData_spec (s : ViewState) (b : Block) :
    (s.has_scratch_table = false → transferRefreshedData s = ([], s))
    ∧ (s.has_scratch_table = true →
        (transferRefreshedData s).1 =
          [Event.transferAllDataFrom s.target_table_id s.scratch_table_id true true]
        ∧ (transferRefreshedData s).2.scratch_table_is_known_to_be_empty = true)
    ∧ (prepareRefresh s b).2.2.scratch_table_is_known_to_be_empty = false := by
  refine ⟨fun h => ?_, fun h => ?_, rfl⟩
  · simp [transferRefreshedData, h]
  · simp [transferRefreshedData, h]

/-- Witness for C2 at a concrete refreshable state. -/
theorem transferRefreshedData_spec_witness :
    (transferRefreshedData sScratch).1 =
      [Event.transferAllDataFrom sScratch.target_table_id sScratch.scratch_table_id true true]
    ∧ (transferRefreshedData sScratch).2.scratch_table_is_known_to_be_empty = true
    ∧ (prepareRefresh sScratch blockAB).2.2.scratch_table_is_known_to_be_empty = false := by
  obtain ⟨_, h2, h3⟩ := transferRefreshedData_spec sScratch blockAB
  exact ⟨(h2 rfl).1, (h2 rfl).2, h3⟩

/-- C4 counterexample: on a view whose target is an external TO-clause
table, truncate performs no action at all and returns normally (its result
type has no error channel), rather than failing with NotImplemented as
claimed. -/
theorem truncate_external_target_counterexample :
    sExternal.has_inner_target_table = false ∧ truncate sExternal = [] := by
  exact ⟨rfl, rfl⟩

/-- C4 (amended): truncate is forwarded to the target table (as a Truncate
drop query with sync true) exactly when the target is an inner table; when
the target is an external TO-clause table the call silently does nothing
and no error is raised. -/
theorem truncate_forwards_only_when_inner (s : ViewState) :
    (s.has_inner_target_table = true →
      truncate s = [Event.truncateForward s.target_table_id true])
    ∧ (s.has_inner_target_table = false → truncate s = []) := by
  refine ⟨fun h => ?_, fun h => ?_⟩ <;> simp [truncate, h]

/-- Witness for the amended C4 at a concrete inner-target state. -/
theorem truncate_forwards_only_when_inner_witness :
    truncate sScratch = [Event.truncateForward sScratch.target_table_id true] :=
  (truncate_forwards_only_when_inner sScratch).1 rfl

/-- C8 counterexample: a view over an external TO-clause target whose
target table exists in the catalog (with known sizes) still reports empty
totals, contradicting the claim that delegation happens whenever the
target exists whether inner or external. -/
theorem totalRows_external_target_counterexample :
    sExternal.has_inner_target_table = false
    ∧ (extCatalog sExternal.target_table_id).isSome = true
    ∧ (extCatalog sExternal.target_table_id).bind TableHandle.total_rows = some 5
    ∧ totalRows sExternal extCatalog = none
    ∧ totalBytes sExternal extCatalog = none
    ∧ totalBytesUncompressed sExternal extCatalog = none := by
  refine ⟨rfl, rfl, rfl, rfl, rfl, rfl⟩

/-- C8 (amended): totalRows, totalBytes and totalBytesUncompressed delegate
to the target table exactly when the target is an inner table that resolves
in the catalog, and return empty otherwise — in particular they return
empty for an external TO-clause target even when it exists. -/
theorem totals_delegate_only_when_inner (s : ViewState) (catalog : Catalog) :
    totalRows s catalog =
      (if s.has_inner_target_table then
        (catalog s.target_table_id).bind TableHandle.total_rows
       else none)
    ∧ totalBytes s catalog =
      (if s.has_inner_target_table then
        (catalog s.target_table_id).bind TableHandle.total_bytes
       else none)
    ∧ totalBytesUncompressed s catalog =
      (if s.has_inner_target_table then
        (catalog s.target_table_id).bind TableHandle.total_bytes_uncompressed
       else none) := by
  refine ⟨?_, ?_, ?_⟩ <;>
    cases hs : s.has_inner_target_table <;>
      cases hc : catalog s.target_table_id <;>
        simp [totalRows, totalBytes, totalBytesUncompressed, hs, hc]

/-- C7: checkAlterIsPossible accepts exactly comment alters, MODIFY QUERY,
and MODIFY REFRESH with a refresher present and the APPEND flag unchanged
(equal to !has_scratch_table); every command list containing anything else
is rejected, and every rejection carries NOT_IMPLEMENTED. -/
theorem checkAlterIsPossible_spec (r h : Bool) (cmds : List AlterCommand) :
    (checkAlterIsPossible r h cmds = .ok () ↔
      ∀ c ∈ cmds, allowedAlter r h c = true)
    ∧ (∀ e, checkAlterIsPossible r h cmds = .error e → e = .NOT_IMPLEMENTED) := by
  induction cmds with
  | nil => exact ⟨by simp [checkAlterIsPossible], by simp [checkAlterIsPossible]⟩
  | cons c rest ih =>
    obtain ⟨ih1, ih2⟩ := ih
    by_cases hc : c.is_comment_alter = true
    · constructor
      · rw [show checkAlterIsPossible r h (c :: rest) = checkAlterIsPossible r h rest
              from by simp [checkAlterIsPossible, hc]]
        simp only [List.mem_cons]
        constructor
        · intro hok
          intro x hx
          rcases hx with hx | hx
          · subst hx; simp [allowedAlter, hc]
          · exact ih1.mp hok x hx
        · intro hall
          exact ih1.mpr (fun x hx => hall x (Or.inr hx))
      · intro e he
        rw [show checkAlterIsPossible r h (c :: rest) = checkAlterIsPossible r h rest
              from by simp [checkAlterIsPossible, hc]] at he
        exact ih2 e he
    · have hcf : c.is_comment_alter = false := by
        cases hcc : c.is_comment_alter
        · rfl
        · exact absurd hcc hc
      by_cases hq : c.type = AlterType.MODIFY_QUERY
      · constructor
        · rw [show checkAlterIsPossible r h (c :: rest) = checkAlterIsPossible r h rest
                from by simp [checkAlterIsPossible, hcf, hq]]
          simp only [List.mem_cons]
          constructor
          · intro hok x hx
            rcases hx with hx | hx
            · subst hx; simp [allowedAlter, hq]
            · exact ih1.mp hok x hx
          · intro hall
            exact ih1.mpr (fun x hx => hall x (Or.inr hx))
        · intro e he
          rw [show checkAlterIsPossible r h (c :: rest) = checkAlterIsPossible r h rest
                from by simp [checkAlterIsPossible, hcf, hq]] at he
          exact ih2 e he
      · by_cases hr : c.type = AlterType.MODIFY_REFRESH
        · by_cases hray : (r = true ∧ c.refresh_append = !h)
          · obtain ⟨hrt, hap⟩ := hray
            have hstep : checkAlterIsPossible r h (c :: rest)
                = checkAlterIsPossible r h rest := by
              simp [checkAlterIsPossible, hcf, hq, hr, hrt, hap]
            constructor
            · rw [hstep]
              simp only [List.mem_cons]
              constructor
              · intro hok x hx
                rcases hx with hx | hx
                · subst hx; simp [allowedAlter, hr, hrt, hap]
                · exact ih1.mp hok x hx
              · intro hall
                exact ih1.mpr (fun x hx => hall x (Or.inr hx))
            · intro e he
              rw [hstep] at he
              exact ih2 e he
          · have hap : ∀ (hrt : r = true), c.refresh_append ≠ !h :=
              fun hrt hap => hray ⟨hrt, hap⟩
            have hstep : checkAlterIsPossible r h (c :: rest)
                = .error .NOT_IMPLEMENTED := by
              rcases Bool.eq_false_or_eq_true r with hrt | hrf
              · have hap2 : (c.refresh_append != !h) = true := by
                  simpa [bne_iff_ne] using hap hrt
                simp [checkAlterIsPossible, hcf, hq, hr, hrt, hap2]
              · simp [checkAlterIsPossible, hcf, hq, hr, hrf]
            constructor
            · rw [hstep]
              constructor
              · intro hok; cases hok
              · intro hall
                have := hall c (List.mem_cons_self c rest)
                have hbad : allowedAlter r h c = false := by
                  rcases Bool.eq_false_or_eq_true r with hrt | hrf
                  · have hap2 : (c.refresh_append == !h) = false := by
                      simpa [beq_eq_false_iff_ne] using hap hrt
                    simp [allowedAlter, hcf, hq, hr, hrt, hap2]
                  · simp [allowedAlter, hcf, hq, hr, hrf]
                rw [this] at hbad
                cases hbad
            · intro e he
              rw [hstep] at he
              cases he
              rfl
        · have hstep : checkAlterIsPossible r h (c :: rest)
              = .error .NOT_IMPLEMENTED := by
            simp [checkAlterIsPossible, hcf, hq, hr]
          constructor
          · rw [hstep]
            constructor
            · intro hok; cases hok
            · intro hall
              have := hall c (List.mem_cons_self c rest)
              have hbad : allowedAlter r h c = false := by
                simp [allowedAlter, hcf, hq, hr]
              rw [this] at hbad
              cases hbad
          · intro e he
            rw [hstep] at he
            cases he
            rfl

/-- Witness for C7: a comment alter followed by MODIFY QUERY and a
matching MODIFY REFRESH is accepted on a refreshable non-APPEND view. -/
theorem checkAlterIsPossible_spec_witness :
    checkAlterIsPossible true true
      [{ type := AlterType.ADD_COLUMN, is_comment_alter := true, refresh_append := false },
       { type := AlterType.MODIFY_QUERY, is_comment_alter := false, refresh_append := false },
       { type := AlterType.MODIFY_REFRESH, is_comment_alter := false, refresh_append := false }]
      = .ok () :=
  (checkAlterIsPossible_spec true true _).1.mpr (by decide)

/-- C6: when the inner target create succeeds and the scratch create then
fails, the constructor issues exactly one rollback drop — for the created
target, with may_lock_ddl_guard equal to (view qualified name < inner
qualified name) — and re-raises the original create error unchanged; the
conclusion holds for every drop_result, so rollback-drop failures are never
propagated. -/
theorem construct_rollback (view_id : StorageID) (q : ASTCreateQuery)
    (attach : Bool) (env : Env) (p : PreState) (cq1 cq2 : CreateTableQuery)
    (tid : StorageID) (e : String)
    (hpre : preConstruct view_id q attach env = .ok p)
    (h1 : p.inner_target_create_query = some cq1)
    (h2 : p.scratch_create_query = some cq2)
    (hok : env.create_result p.target_table_id = .ok tid)
    (hfail : env.create_result p.scratch_table_id = .error e) :
    (construct view_id q attach env).2 = .error (.createFailed e)
    ∧ dropsIssued (construct view_id q attach env).1
        = [(tid, qualifiedLt view_id tid)]
    ∧ createsIssued (construct view_id q attach env).1 = [p.target_table_id] := by
  have hc : construct view_id q attach env
      = (Event.createTable p.target_table_id :: rollbackDrops env view_id [tid],
         .error (.createFailed e)) := by
    simp only [construct, hpre, runCreates, h1, h2, hok, hfail]
  rw [hc]
  cases hd : env.drop_result tid <;>
    simp [rollbackDrops, dropsIssued, createsIssued, hd]

/-- Witness for C6: on the concrete refreshable create where the scratch
create fails with "boom", the target is dropped once and "boom"
propagates. -/
theorem construct_rollback_witness :
    (construct vid0 qScratch false envScratchFails).2 = .error (.createFailed "boom")
    ∧ dropsIssued (construct vid0 qScratch false envScratchFails).1
        = [(tid0, qualifiedLt vid0 tid0)]
    ∧ createsIssued (construct vid0 qScratch false envScratchFails).1 = [tid0] :=
  construct_rollback vid0 qScratch false envScratchFails pW
    (innerTargetCreateQuery qScratch) (innerTargetCreateQuery qScratch) tid0 "boom"
    rfl rfl rfl rfl rfl

/-- C3 counterexample: on a concrete non-attach refreshable create whose
scratch engine lacks moving-data support, construction fails with
NOT_IMPLEMENTED, not BAD_ARGUMENTS as the claim states. -/
theorem scratch_engine_no_move_raises_not_implemented :
    (construct vid0 qScratch false envNoMove).2 = .error (.err .NOT_IMPLEMENTED)
    ∧ (construct vid0 qScratch false envNoMove).2 ≠ .error (.err .BAD_ARGUMENTS) := by
  refine ⟨rfl, fun h => ?_⟩
  exact ErrorCode.noConfusion (ConstructError.err.inj (Except.error.inj h))

/-- C3 (amended): for every non-attach construction of a view with a
scratch table whose derived scratch engine does not support moving data
between tables (all earlier validations passing), construction fails with
error kind NOT_IMPLEMENTED — not BAD_ARGUMENTS — and the error propagates
to the caller with no create executed. -/
theorem scratch_engine_no_move_rejected (view_id : StorageID)
    (q : ASTCreateQuery) (env : Env) (st : ASTStorageClause) (ename : String)
    (f : Features)
    (hpass : passesPreScratchChecks view_id q env = true)
    (hscr : q.needs_scratch_table = true)
    (hkind : ((scratchDerivedCreate q env).is_dictionary
        || (scratchDerivedCreate q env).is_ordinary_view
        || (scratchDerivedCreate q env).is_materialized_view
        || (scratchDerivedCreate q env).is_live_view
        || (scratchDerivedCreate q env).is_window_view) = false)
    (hst : (scratchDerivedCreate q env).storage = some st)
    (he : st.engine = some ename)
    (hf : env.features ename = some f)
    (hmove : f.supports_moving_data_between_tables = false) :
    construct view_id q false env = ([], .error (.err .NOT_IMPLEMENTED)) := by
  simp only [passesPreScratchChecks, Bool.and_eq_true, Bool.not_eq_true'] at hpass
  obtain ⟨⟨⟨⟨hsel, hsto⟩, hcap⟩, hself⟩, hguard⟩ := hpass
  have hval : validateScratchCreate env (scratchDerivedCreate q env)
      = .error (.err .NOT_IMPLEMENTED) := by
    simp only [validateScratchCreate, hkind, hst, he, hf, hmove]
    simp
  have hpre : preConstruct view_id q false env
      = .error (.err .NOT_IMPLEMENTED) := by
    simp only [preConstruct, hsel, hsto, hcap, hself, hguard, hscr]
    simp only [scratchDerivedCreate] at hval
    simp [hval]
  simp [construct, hpre]

/-- Witness for the amended C3 at the concrete no-moving-data fixture. -/
theorem scratch_engine_no_move_rejected_witness :
    construct vid0 qScratch false envNoMove = ([], .error (.err .NOT_IMPLEMENTED)) :=
  scratch_engine_no_move_rejected vid0 qScratch envNoMove
    { engine := some "MergeTree", partition_by := false } "MergeTree"
    { supports_moving_data_between_tables := false, supports_replication := false }
    rfl rfl rfl rfl rfl rfl rfl

/-- C5 counterexample: a construction input with zero TO INNER UUIDs while
the view needs one inner table (count 0 differs from needsInnerTables = 1)
nevertheless constructs successfully: the count check only runs when
to_inner_uuid is non-empty. -/
theorem uuid_count_unchecked_when_empty :
    qPlain.to_inner_uuid.length = 0
    ∧ needsInnerTables qPlain = 1
    ∧ constructSucceeds (construct vid0 qPlain false envOk) = true :=
  ⟨rfl, rfl, rfl⟩

/-- C5 (amended): when TO INNER UUIDs are present, a count differing from
needsInnerTables makes construction fail with INCORRECT_QUERY (given the
earlier validations pass); and when two UUIDs are present, uuid[0] is bound
as the target inner table's UUID and uuid[last] as the scratch inner
table's UUID. -/
theorem to_inner_uuid_spec (view_id : StorageID) (q : ASTCreateQuery)
    (attach : Bool) (env : Env) (u1 u2 : String)
    (hsel : q.select = true)
    (hsto : (q.needs_inner_target_table && q.storage.isNone) = false)
    (hcap : (env.select_has_table && decide (0 < env.max_materialized_views)
        && decide (env.max_materialized_views ≤ env.dependent_views_count)) = false)
    (hself : (q.to_inner_uuid.any (fun u => some u == view_id.uuid)
        || (q.to_table_id.database_name == view_id.database_name
            && q.to_table_id.table_name == view_id.table_name)) = false) :
    (q.to_inner_uuid ≠ [] → q.to_inner_uuid.length ≠ needsInnerTables q →
      construct view_id q attach env = ([], .error (.err .INCORRECT_QUERY)))
    ∧ (q.to_inner_uuid = [u1, u2] →
        ∀ p, preConstruct view_id q attach env = .ok p →
          p.target_table_id.uuid = some u1 ∧ p.scratch_table_id.uuid = some u2) := by
  constructor
  · intro hne hlen
    have hie : q.to_inner_uuid.isEmpty = false := by
      cases hq : q.to_inner_uuid with
      | nil => exact absurd hq hne
      | cons a as => rfl
    have hbne : (q.to_inner_uuid.length != needsInnerTables q) = true := by
      simpa [bne_iff_ne] using hlen
    have hpre : preConstruct view_id q attach env
        = .error (.err .INCORRECT_QUERY) := by
      simp [preConstruct, hsel, hsto, hcap, hself, hie, hbne]
    simp [construct, hpre]
  · intro h2 p hp
    simp [h2] at hself
    have hselfName : ¬(q.to_table_id.database_name = view_id.database_name
        ∧ q.to_table_id.table_name = view_id.table_name) :=
      fun hand => hself.2 hand.1 hand.2
    cases hit : q.needs_inner_target_table with
    | false =>
      exfalso
      cases hsc : q.needs_scratch_table <;>
        simp [preConstruct, hsel, hsto, hcap, h2, hit, hsc,
              needsInnerTables, hself, hselfName] at hp
    | true =>
      have hstoF : q.storage.isNone = false := by simpa [hit] using hsto
      have hstoP : q.storage ≠ none := by
        intro hnone
        simp [hnone] at hstoF
      cases hsc : q.needs_scratch_table with
      | false =>
        exfalso
        simp [preConstruct, hsel, hcap, h2, hit, hsc,
              needsInnerTables, hself, hselfName, hstoP] at hp
      | true =>
        cases attach with
        | true =>
          simp [preConstruct, hsel, hcap, h2, hit, hsc,
                needsInnerTables, hself, hselfName, hstoP] at hp
          subst hp
          exact ⟨rfl, rfl⟩
        | false =>
          simp only [preConstruct, hsel, hcap, h2, hit, hsc,
                     needsInnerTables] at hp
          cases hv : validateScratchCreate env (innerTargetCreateQuery q) with
          | ok u =>
            simp [hv, hself, hselfName, hstoP] at hp
            subst hp
            exact ⟨rfl, rfl⟩
          | error er =>
            simp [hv, hself, hselfName, hstoP] at hp

/-- Witness for the amended C5: the count-mismatch input fails with
INCORRECT_QUERY, and on the two-UUID input the bound inner ids carry
"tu" and "su". -/
theorem to_inner_uuid_spec_witness :
    construct vid0 qBadCount false envOk = ([], .error (.err .INCORRECT_QUERY))
    ∧ preConstruct vid0 qScratchUuid true envOk = .ok pU
    ∧ pU.target_table_id.uuid = some "tu"
    ∧ pU.scratch_table_id.uuid = some "su" := by
  refine ⟨?_, rfl, ?_⟩
  · exact (to_inner_uuid_spec vid0 qBadCount false envOk "" ""
      rfl rfl rfl rfl).1 (by decide) (by decide)
  · exact (to_inner_uuid_spec vid0 qScratchUuid true envOk "tu" "su"
      rfl rfl rfl rfl).2 rfl pU rfl

/-- C10: with attach = true (and the attach-path validations passing), no
inner-table create query is executed and the scratch-engine checks are not
performed — the environment's engine features and catalog create query are
arbitrary — construction succeeds, and the inner-table identities are bound
from the minted names and the TO INNER UUIDs. -/
theorem attach_skips_creates_and_checks (view_id : StorageID)
    (q : ASTCreateQuery) (env : Env)
    (hpass : passesPreScratchChecks view_id q env = true) :
    (construct view_id q true env).1 = []
    ∧ ∃ s, (construct view_id q true env).2 = Except.ok s
        ∧ (q.needs_inner_target_table = true →
              s.target_table_id.database_name = view_id.database_name
              ∧ s.target_table_id.table_name = generateInnerTableName view_id false)
        ∧ (q.needs_scratch_table = true →
              s.scratch_table_id.database_name = view_id.database_name
              ∧ s.scratch_table_id.table_name = generateInnerTableName view_id true)
        ∧ (q.to_inner_uuid.isEmpty = false →
              (q.needs_inner_target_table = true →
                  s.target_table_id.uuid = some (q.to_inner_uuid.headD ""))
              ∧ (q.needs_scratch_table = true →
                  s.scratch_table_id.uuid = some (q.to_inner_uuid.getLastD ""))) := by
  simp only [passesPreScratchChecks, Bool.and_eq_true, Bool.not_eq_true'] at hpass
  obtain ⟨⟨⟨⟨hsel, hsto⟩, hcap⟩, hself⟩, hguard⟩ := hpass
  cases hpe : preConstruct view_id q true env with
  | error e =>
    exfalso
    simp only [preConstruct, hsel, hsto, hcap, hself, hguard] at hpe
    simp at hpe
  | ok p =>
    have hc : construct view_id q true env = runCreates env view_id p := by
      simp [construct, hpe]
    simp only [preConstruct, hsel, hsto, hcap, hself, hguard] at hpe
    simp at hpe
    subst hpe
    rw [hc]
    cases huu : q.to_inner_uuid <;>
      cases hit : q.needs_inner_target_table <;>
        cases hsc : q.needs_scratch_table <;>
          simp [runCreates, hit, hsc]

/-- Witness for C10: reattaching the refreshable two-UUID view in an
environment whose engines all reject moving data still succeeds, with an
empty trace and the expected bound state. -/
theorem attach_skips_creates_and_checks_witness :
    (construct vid0 qScratchUuid true envNoMove).1 = []
    ∧ (construct vid0 qScratchUuid true envNoMove).2 = Except.ok sU := by
  have h := attach_skips_creates_and_checks vid0 qScratchUuid envNoMove rfl
  exact ⟨h.1, rfl⟩

/-! ## Header reconciliation lemmas (C9) -/

/-- A column of a block is found by hasName. -/
theorem mem_hasName {b : Block} {c : Column} (hc : c ∈ b) :
    b.hasName c.name = true := by
  simp only [Block.hasName, List.any_eq_true]
  exact ⟨c, hc, by simp⟩

/-- eraseFrom keeps exactly the elements whose (offset) position fails the
membership test, pointwise described by a predicate. -/
theorem eraseFrom_eq_filter (p : Column → Bool) (t : Block) :
    ∀ (ps : List Nat) (k : Nat),
      (∀ (i : Nat) (hi : i < t.length), ps.contains (k + i) = p (t.get ⟨i, hi⟩)) →
      eraseFrom t ps k = t.filter (fun c => !(p c)) := by
  induction t with
  | nil => intro ps k _; rfl
  | cons c rest ih =>
    intro ps k h
    have h0 : ps.contains k = p c := by simpa using h 0 (by simp)
    have hr : ∀ (i : Nat) (hi : i < rest.length),
        ps.contains ((k + 1) + i) = p (rest.get ⟨i, hi⟩) := by
      intro i hi
      have h2 := h (i + 1) (by simpa using Nat.succ_lt_succ hi)
      have he : k + (i + 1) = (k + 1) + i := by omega
      rw [he] at h2
      simpa using h2
    have hrec := ih ps (k + 1) hr
    cases hp : p c with
    | true =>
      rw [hp] at h0
      have h0m : k ∈ ps := List.elem_iff.mp h0
      simp [eraseFrom, h0m, hrec, List.filter_cons, hp]
    | false =>
      rw [hp] at h0
      have h0m : k ∉ ps := by simpa using h0
      simp [eraseFrom, h0m, hrec, List.filter_cons, hp]

/-- With distinct column names, getPositionByName of the i-th column's
name is i. -/
theorem getPositionByName_get (t : Block) (hnd : (t.map Column.name).Nodup)
    (i : Nat) (hi : i < t.length) :
    t.getPositionByName (t.get ⟨i, hi⟩).name = i := by
  have hex : ∃ x ∈ t, (x.name == (t.get ⟨i, hi⟩).name) = true :=
    ⟨t.get ⟨i, hi⟩, t.get_mem i hi, by simp⟩
  have hlt : t.findIdx (fun c => c.name == (t.get ⟨i, hi⟩).name) < t.length :=
    List.findIdx_lt_length_of_exists hex
  have hfound := @List.findIdx_getElem _
    (fun c => c.name == (t.get ⟨i, hi⟩).name) t hlt
  have hnameeq : (t.get ⟨t.findIdx (fun c => c.name == (t.get ⟨i, hi⟩).name), hlt⟩).name
      = (t.get ⟨i, hi⟩).name := by
    simpa [List.get_eq_getElem] using hfound
  have h1 : t.findIdx (fun c => c.name == (t.get ⟨i, hi⟩).name)
      < (t.map Column.name).length := by simpa using hlt
  have h2 : i < (t.map Column.name).length := by simpa using hi
  have hmap : (t.map Column.name).get
        ⟨t.findIdx (fun c => c.name == (t.get ⟨i, hi⟩).name), h1⟩
      = (t.map Column.name).get ⟨i, h2⟩ := by
    simp only [List.get_eq_getElem, List.getElem_map]
    simp only [List.get_eq_getElem] at hnameeq
    exact hnameeq
  have hfin := (hnd.get_inj_iff).mp hmap
  have hv : t.findIdx (fun c => c.name == (t.get ⟨i, hi⟩).name) = i :=
    congrArg Fin.val hfin
  simpa [Block.getPositionByName] using hv

/-- With distinct column names, the position list built by
removeNonCommonColumns contains position i exactly when the i-th column's
name is absent from src. -/
theorem targetOnly_contains (src t : Block) (hnd : (t.map Column.name).Nodup)
    (i : Nat) (hi : i < t.length) :
    (((t.filter (fun c => !(src.hasName c.name))).map
        (fun c => t.getPositionByName c.name)).contains i)
      = !(src.hasName (t.get ⟨i, hi⟩).name) := by
  have hiff : (((t.filter (fun c => !(src.hasName c.name))).map
        (fun c => t.getPositionByName c.name)).contains i) = true
      ↔ src.hasName (t.get ⟨i, hi⟩).name = false := by
    rw [List.elem_iff]
    constructor
    · intro hmem
      rw [List.mem_map] at hmem
      obtain ⟨c, hcf, hpos⟩ := hmem
      rw [List.mem_filter] at hcf
      obtain ⟨hcB, hcA⟩ := hcf
      -- c is at some index; with nodup names, getPositionByName of its
      -- name is that index, so i is that index and t.get i is c
      obtain ⟨j, hje⟩ := List.mem_iff_get.mp hcB
      rw [← hje] at hpos hcA
      have hjpos : t.getPositionByName (t.get j).name = j.val := by
        have := getPositionByName_get t hnd j.val j.isLt
        simpa using this
      rw [hjpos] at hpos
      have hget : t.get ⟨i, hi⟩ = t.get j := by
        congr 1
        apply Fin.ext
        exact hpos.symm
      rw [hget]
      simpa using hcA
    · intro hfalse
      rw [List.mem_map]
      refine ⟨t.get ⟨i, hi⟩, ?_, ?_⟩
      · rw [List.mem_filter]
        refine ⟨t.get_mem i hi, ?_⟩
        simpa [List.get_eq_getElem] using hfalse
      · exact getPositionByName_get t hnd i hi
  cases hsrc : src.hasName (t.get ⟨i, hi⟩).name with
  | false => simpa using hiff.mpr hsrc
  | true =>
    have : ¬(((t.filter (fun c => !(src.hasName c.name))).map
        (fun c => t.getPositionByName c.name)).contains i) = true := by
      intro hc
      rw [hiff] at hc
      rw [hsrc] at hc
      cases hc
    simpa using this

/-- With distinct target column names, removeNonCommonColumns keeps exactly
the target columns whose name occurs in src, in order. -/
theorem removeNonCommonColumns_eq_filter (src t : Block)
    (hnd : (t.map Column.name).Nodup) :
    removeNonCommonColumns src t = t.filter (fun c => src.hasName c.name) := by
  show Block.eraseAtPositions t _ = _
  unfold Block.eraseAtPositions
  rw [eraseFrom_eq_filter (fun c => !(src.hasName c.name)) t _ 0
    (fun i hi => by simpa using targetOnly_contains src t hnd i hi)]
  simp [Bool.not_not]

/-- hasName on a name-filtered block is the conjunction of the two
hasName tests. -/
theorem hasName_filter (A B : Block) (n : String) :
    Block.hasName (B.filter (fun c => Block.hasName A c.name)) n
      = (Block.hasName B n && Block.hasName A n) := by
  rw [Bool.eq_iff_iff]
  simp only [Block.hasName, List.any_filter, List.any_eq_true,
             Bool.and_eq_true]
  constructor
  · rintro ⟨c, hcB, hcA, hcn⟩
    have hbn : c.name = n := by simpa using hcn
    rw [hbn] at hcA
    exact ⟨⟨c, hcB, hcn⟩, hcA⟩
  · rintro ⟨⟨c, hcB, hcn⟩, hAn⟩
    have hbn : c.name = n := by simpa using hcn
    rw [← hbn] at hAn
    exact ⟨c, hcB, hAn, hcn⟩

/-- C9 counterexample: two headers sharing the one column name "a" with
different types are left unchanged by reconciliation in both directions,
and the resulting headers do not have equal structure — the claim's
"produces equal-structure headers" fails (the source adds a converting
expression step exactly in this case). -/
theorem header_reconciliation_structure_counterexample :
    removeNonCommonColumns blkInt blkStr = blkStr
    ∧ removeNonCommonColumns blkStr blkInt = blkInt
    ∧ blocksHaveEqualStructure (removeNonCommonColumns blkStr blkInt)
        (removeNonCommonColumns blkInt blkStr) = false := by
  decide

/-- C9 (amended): for headers with distinct column names, reconciliation is
commutative in column removal — pruning one side against the other's
pruned or unpruned header gives the same result, and each side retains
exactly its columns whose names appear in the other original header, in
original order — but the resulting headers need not have equal structure
(types can differ, handled downstream by a converting step). -/
theorem removeNonCommonColumns_commutative (A B : Block)
    (hA : (A.map Column.name).Nodup) (hB : (B.map Column.name).Nodup) :
    removeNonCommonColumns A B = B.filter (fun c => A.hasName c.name)
    ∧ removeNonCommonColumns B A = A.filter (fun c => B.hasName c.name)
    ∧ removeNonCommonColumns (removeNonCommonColumns A B) A
        = A.filter (fun c => B.hasName c.name)
    ∧ removeNonCommonColumns (removeNonCommonColumns B A) B
        = B.filter (fun c => A.hasName c.name) := by
  have h1 := removeNonCommonColumns_eq_filter A B hB
  have h2 := removeNonCommonColumns_eq_filter B A hA
  refine ⟨h1, h2, ?_, ?_⟩
  · rw [h1]
    rw [removeNonCommonColumns_eq_filter _ A hA]
    apply List.filter_congr
    intro c hc
    rw [hasName_filter]
    rw [mem_hasName hc]
    simp
  · rw [h2]
    rw [removeNonCommonColumns_eq_filter _ B hB]
    apply List.filter_congr
    intro c hc
    rw [hasName_filter]
    rw [mem_hasName hc]
    simp

/-- Witness for the amended C9 at concrete distinct-name headers. -/
theorem removeNonCommonColumns_commutative_witness :
    removeNonCommonColumns blockAB blkStr
        = blkStr.filter (fun c => blockAB.hasName c.name)
    ∧ removeNonCommonColumns blkStr blockAB
        = blockAB.filter (fun c => blkStr.hasName c.name)
    ∧ removeNonCommonColumns (removeNonCommonColumns blockAB blkStr) blockAB
        = blockAB.filter (fun c => blkStr.hasName c.name)
    ∧ removeNonCommonColumns (removeNonCommonColumns blkStr blockAB) blkStr
        = blkStr.filter (fun c => blockAB.hasName c.name) :=
  removeNonCommonColumns_commutative blockAB blkStr (by decide) (by decide)

end MV
